import Mathlib

/-!
Verification development for the Python fingerprinting agent
(system_detector.py, software_detector.py, remote_executor.py, utils.py,
main.py).  The Python functions are shallowly embedded as Lean functions;
external command execution is modelled by an oracle argument describing the
outcome of each spawned process.
-/

namespace Fingerprint

/-! ### Python string helpers

Embeddings of the Python string operations used by the agent:
str.strip, str.split() on whitespace, str.split(sep), indexing the first
element, substring membership and str.startswith. -/

/-- Strip leading and trailing whitespace from a character list. -/
def trimChars (l : List Char) : List Char :=
  ((l.dropWhile Char.isWhitespace).reverse.dropWhile Char.isWhitespace).reverse

/-- Python str.strip(): remove whitespace at both edges. -/
def pyStrip (s : String) : String := String.mk (trimChars s.data)

/-- Split a character list at every occurrence of the separator, keeping
empty pieces, as Python str.split(sep) with a one-character separator. -/
def splitOnChar (sep : Char) : List Char → List (List Char)
  | [] => [[]]
  | c :: cs =>
    match splitOnChar sep cs with
    | [] => [[c]]
    | g :: gs => if c == sep then [] :: g :: gs else (c :: g) :: gs

/-- Python s.split(chr(10)): the lines of s, keeping empty pieces. -/
def pySplitNl (s : String) : List String := (splitOnChar '\n' s.data).map String.mk

/-- Python sep.join(xs). -/
def pyJoin (sep : String) : List String → String
  | [] => ""
  | x :: rest => rest.foldl (fun acc y => acc ++ sep ++ y) x

/-- Python str.lower() (ASCII). -/
def pyLower (s : String) : String := String.mk (s.data.map Char.toLower)

/-- Python str.split() with no separator: split on whitespace runs,
dropping empty pieces. -/
def pySplitWs (s : String) : List String :=
  ((splitOnChar ' ' ((s.data.map fun c => if c.isWhitespace then ' ' else c))).filter
    (fun p => p ≠ [])).map String.mk

/-- Python output.split()[0]. The agent only applies this to nonempty
stripped strings, for which the list is nonempty; the default is unreachable
there. -/
def pyFirstTok (s : String) : String := (pySplitWs s).headD ""

/-- Python output.strip().split(chr(10))[0]: first line of the stripped
string. -/
def pyFirstLine (s : String) : String := (pySplitNl (pyStrip s)).headD ""

/-- List prefix test on characters (Python startswith, on char lists). -/
def charsPre : List Char → List Char → Bool
  | [], _ => true
  | _ :: _, [] => false
  | a :: as, b :: bs => a == b && charsPre as bs

/-- Substring occurrence test on characters (Python `in` for strings). -/
def charsSub (pat : List Char) : List Char → Bool
  | [] => charsPre pat []
  | c :: cs => charsPre pat (c :: cs) || charsSub pat cs

/-- Python pat in s. -/
def pyIn (pat s : String) : Bool := charsSub pat.data s.data

/-- Python s.startswith pat. -/
def pyStarts (s pat : String) : Bool := charsPre pat.data s.data

/-- Python line.split(sep, 1) for a one-character separator: split at the
first occurrence only. -/
def pySplit1 (s : String) (sep : Char) : List String :=
  match splitOnChar sep s.data with
  | [] => []
  | [a] => [String.mk a]
  | a :: rest => [String.mk a, pyJoin (String.mk [sep]) (rest.map String.mk)]

/-- One scan step of Python str.replace: when the skip counter is zero and
the pattern starts here, emit the replacement and skip the pattern. -/
def replStep (pat repl : List Char) : List Char → Nat → List Char
  | [], _ => []
  | c :: cs, 0 =>
    if charsPre pat (c :: cs) && !pat.isEmpty then
      repl ++ replStep pat repl cs (pat.length - 1)
    else c :: replStep pat repl cs 0
  | _ :: cs, Nat.succ k => replStep pat repl cs k

/-- Python s.replace(pat, repl) for a nonempty pattern. -/
def pyReplace (s pat repl : String) : String :=
  String.mk (replStep pat.data repl.data s.data 0)

/-! ### Command transport (utils.execute_command)

The outcome of subprocess.run is modelled by an oracle value: either the
process finished with a return code, stdout and stderr, or the timeout
expired, or some exception was raised. -/

/-- Outcome of one local subprocess.run call. -/
inductive ProcOutcome where
  | finished (returncode : Int) (stdout stderr : String)
  | timedOut
  | raised (msg : String)
deriving Repr, DecidableEq

/-- A local runner: what subprocess.run does for a given command and
timeout. -/
def LocalRunner := String → Nat → ProcOutcome

/-- Embedding of utils.execute_command: combine stdout (falling back to
stderr when stdout strips to empty), success iff return code 0; timeout and
exceptions become a false result with a message, never an error value. -/
def execute_command (run : LocalRunner) (command : String) (timeout : Nat := 30) :
    Bool × String :=
  match run command timeout with
  | .finished rc out err =>
    let output := pyStrip out
    let output := if output = "" && err ≠ "" then pyStrip err else output
    (rc == 0, output)
  | .timedOut =>
    (false, "Command timed out after " ++ toString timeout ++ " seconds")
  | .raised msg =>
    (false, "Error executing command: " ++ msg)

/-! ### SSH transport (utils.execute_ssh_command) -/

/-- Outcome of one subprocess.run call on an ssh argument vector. -/
inductive SshOutcome where
  | finished (returncode : Int) (stdout stderr : String)
  | timedOut
  | fileNotFound
  | raised (msg : String)
deriving Repr, DecidableEq

/-- An ssh runner: what subprocess.run does for a given argument vector and
timeout. -/
def SshRunner := List String → Nat → SshOutcome

/-- Python truthiness of an optional string argument (None and the empty
string are falsy). -/
def pyTruthyOpt : Option String → Bool
  | none => false
  | some s => s ≠ ""

/-- The ssh argument vector built by utils.execute_ssh_command. -/
def buildSshParts (host command : String) (username : Option String)
    (port : Nat) (key_file : Option String) (timeout : Nat) : List String :=
  let ssh_parts := ["ssh"]
  let ssh_parts := ssh_parts ++
    ["-o", "BatchMode=yes",
     "-o", "StrictHostKeyChecking=no",
     "-o", "UserKnownHostsFile=/dev/null",
     "-o", "ConnectTimeout=" ++ toString timeout]
  let ssh_parts := if port ≠ 22 then ssh_parts ++ ["-p", toString port] else ssh_parts
  let ssh_parts := if pyTruthyOpt key_file then ssh_parts ++ ["-i", key_file.getD ""] else ssh_parts
  let ssh_parts :=
    if pyTruthyOpt username then ssh_parts ++ [username.getD "" ++ "@" ++ host]
    else ssh_parts ++ [host]
  ssh_parts ++ [command]

/-- Embedding of utils.execute_ssh_command: build the argument vector, run
it, strip stdout, fall back to the stderr lines that are not ssh warnings,
and turn timeout / missing client / exceptions into a false result. -/
def execute_ssh_command (run : SshRunner) (host command : String)
    (username : Option String := none) (port : Nat := 22)
    (key_file : Option String := none) (timeout : Nat := 30) :
    Bool × String × String :=
  let ssh_parts := buildSshParts host command username port key_file timeout
  let ssh_command := pyJoin " " ssh_parts
  match run ssh_parts timeout with
  | .finished rc out err =>
    let output := pyStrip out
    let output :=
      if output = "" && err ≠ "" then
        let stderr := pyStrip err
        let error_lines := (pySplitNl stderr).filter (fun l => !pyStarts l "Warning:")
        if error_lines ≠ [] then pyJoin "\n" error_lines else output
      else output
    (rc == 0, output, ssh_command)
  | .timedOut =>
    (false, "SSH command timed out after " ++ toString timeout ++ " seconds", ssh_command)
  | .fileNotFound =>
    (false, "SSH client not found. Install OpenSSH.", ssh_command)
  | .raised msg =>
    (false, "SSH error: " ++ msg, ssh_command)

/-! ### Version regex (software_detector._extract_version)

Embedding of the Python search for the raw regular expression
backslash-b ( digits . digits . digits ( . digits )? ) backslash-b :
leftmost match of a three- or four-component dotted numeric version with a
word boundary on each side.  Word characters are alphanumerics and the
underscore, as in the re module on ASCII input. -/

/-- Word character for the word-boundary assertion. -/
def isWordChar (c : Char) : Bool := c.isAlphanum || c == '_'

/-- Greedy digit prefix: maximal run of digits and the rest. -/
def takeDigits : List Char → List Char × List Char
  | [] => ([], [])
  | c :: cs =>
    if c.isDigit then
      let (d, r) := takeDigits cs
      (c :: d, r)
    else ([], c :: cs)

/-- Match n dot-separated nonempty digit groups at the head of the list;
return the matched characters and the rest. -/
def matchGroups : Nat → List Char → Option (List Char × List Char)
  | 0, cs => some ([], cs)
  | 1, cs =>
    let (d, r) := takeDigits cs
    if d.isEmpty then none else some (d, r)
  | n + 2, cs =>
    let (d, r) := takeDigits cs
    if d.isEmpty then none
    else
      match r with
      | [] => none
      | c :: r2 =>
        if c == '.' then
          match matchGroups (n + 1) r2 with
          | some (m, rest) => some (d ++ '.' :: m, rest)
          | none => none
        else none

/-- Word boundary after a digit: holds when the rest is empty or starts
with a non-word character. -/
def boundaryAfter : List Char → Bool
  | [] => true
  | c :: _ => !isWordChar c

/-- Try the three-or-four-component dotted pattern at the current position:
match three groups, then greedily try an optional fourth group, requiring a
trailing word boundary, backtracking to the three-group match when the
fourth fails its boundary. -/
def matchDotted34 (cs : List Char) : Option (List Char) :=
  match matchGroups 3 cs with
  | none => none
  | some (m3, r3) =>
    match r3 with
    | [] => if boundaryAfter r3 then some m3 else none
    | c :: r3' =>
      if c == '.' then
        let (d4, r4) := takeDigits r3'
        if !d4.isEmpty && boundaryAfter r4 then some (m3 ++ '.' :: d4)
        else if boundaryAfter r3 then some m3
        else none
      else if boundaryAfter r3 then some m3 else none

/-- Scan left to right for the first position with a leading word boundary
where the dotted pattern matches; prev records whether the previous
character is a word character. -/
def scanDotted34 : List Char → Bool → Option String
  | [], _ => none
  | c :: cs, prev =>
    if !prev then
      match matchDotted34 (c :: cs) with
      | some m => some (String.mk m)
      | none => scanDotted34 cs (isWordChar c)
    else scanDotted34 cs (isWordChar c)

/-- re.search of the bounded three-or-four-component version pattern used
by software_detector._extract_version. -/
def searchDotted34 (s : String) : Option String := scanDotted34 s.data false

/-- Try an n-component dotted pattern (no word-boundary assertions) at the
current position, as in the unanchored patterns of utils.extract_version. -/
def scanDottedN (n : Nat) : List Char → Option String
  | [] => none
  | c :: cs =>
    match matchGroups n (c :: cs) with
    | some (m, _) => some (String.mk m)
    | none => scanDottedN n cs

/-- Embedding of utils.extract_version: try the four-, then three-, then
two-component unanchored patterns, leftmost match of the first pattern that
matches anywhere. -/
def utilsExtractVersion (output : String) : Option String :=
  match scanDottedN 4 output.data with
  | some v => some v
  | none =>
    match scanDottedN 3 output.data with
    | some v => some v
    | none => scanDottedN 2 output.data

/-! ### Product family normalization
(utils.ProductFamily, software_detector._normalize_product_family) -/

/-- The values of the ProductFamily enumeration, in declaration order. -/
def productFamilyValues : List String :=
  ["IDE", "Browser", "Virtualization", "Communication", "Programming Language",
   "Version Control", "Database", "Runtime", "Container", "Cloud Tools",
   "Security", "Monitoring", "Other", "Unknown"]

/-- The family_mapping dictionary of _normalize_product_family: each key is
mapped to the value of the corresponding ProductFamily member. -/
def familyMapping : List (String × String) :=
  [("IDE", "IDE"), ("Browser", "Browser"), ("Virtualization", "Virtualization"),
   ("Communication", "Communication"), ("Programming Language", "Programming Language"),
   ("Version Control", "Version Control"), ("Database", "Database"),
   ("Runtime", "Runtime"), ("Container", "Container"), ("Cloud Tools", "Cloud Tools"),
   ("Security", "Security"), ("Monitoring", "Monitoring")]

/-- Embedding of SoftwareDetector._normalize_product_family: look the raw
string up in family_mapping, else accept it when it is an enumeration
value, else normalize to Other. -/
def normalizeProductFamily (family : String) : String :=
  match familyMapping.find? (fun kv => kv.1 == family) with
  | some kv => kv.2
  | none =>
    if productFamilyValues.contains family then family
    else "Other"

/-! ### Local system detection (system_detector.SystemDetector)

The platform.system() routing is modelled by a three-valued platform tag
(the platform keys the agent supports); the values the Python platform
module would return as fallbacks are gathered in a PlatMod record.
Evidence entries are (key, command_run, raw_output) triples, appended in
the order the Python code stores them in the evidences dict; each detector
uses its own key, so the list models the dict. -/

/-- Supported platform keys. -/
inductive Plat where
  | darwin
  | linux
  | windows
deriving Repr, DecidableEq

/-- Fallback values of the Python platform module. -/
structure PlatMod where
  version : String
  macVer : String
  release : String
  processor : String
  machine : String
  node : String
deriving Repr, DecidableEq

/-- Evidence entries: fact key, command run, raw output. -/
abbrev EvList := List (String × String × String)

def linuxDistroCmd1 : String :=
  "cat /etc/os-release 2>/dev/null | grep \x27^NAME=\x27 | cut -d\x27=\x27 -f2 | tr -d \x27\"\x27"

def linuxDistroCmd2 : String := "lsb_release -si 2>/dev/null"

def linuxDistroCmd3 : String := "cat /etc/issue 2>/dev/null | head -n 1"

/-- Embedding of SystemDetector._detect_linux_distro: os-release NAME
(first word of the value), then lsb_release, then /etc/issue (first word),
else the hard-coded Linux with no evidence. -/
def detectLinuxDistro (run : LocalRunner) : String × EvList :=
  let (s1, o1) := execute_command run linuxDistroCmd1
  if s1 && o1 ≠ "" then (pyFirstTok o1, [("linux_distro", linuxDistroCmd1, o1)])
  else
    let (s2, o2) := execute_command run linuxDistroCmd2
    if s2 && o2 ≠ "" then (pyStrip o2, [("linux_distro", linuxDistroCmd2, o2)])
    else
      let (s3, o3) := execute_command run linuxDistroCmd3
      if s3 && o3 ≠ "" then (pyFirstTok o3, [("linux_distro", linuxDistroCmd3, o3)])
      else ("Linux", [])

/-- Embedding of SystemDetector.detect_os: macOS and Windows are
hard-coded with no evidence; Linux runs the distro waterfall. -/
def detectOs (plat : Plat) (run : LocalRunner) : String × EvList :=
  match plat with
  | .darwin => ("macOS", [])
  | .linux => detectLinuxDistro run
  | .windows => ("Windows", [])

/-- Embedding of SystemDetector._detect_darwin_version. -/
def detectDarwinVersion (run : LocalRunner) (pm : PlatMod) : String × EvList :=
  let cmd := "sw_vers -productVersion"
  let (s, o) := execute_command run cmd
  if s && o ≠ "" then (o, [("os_version", cmd, o)])
  else (pm.macVer, [("os_version", "platform.mac_ver()", pm.macVer)])

def linuxVersionCmd1 : String :=
  "cat /etc/os-release 2>/dev/null | grep \x27^VERSION_ID=\x27 | cut -d\x27=\x27 -f2 | tr -d \x27\"\x27"

def linuxVersionCmd2 : String := "lsb_release -sr 2>/dev/null"

/-- Embedding of SystemDetector._detect_linux_version. -/
def detectLinuxVersion (run : LocalRunner) (pm : PlatMod) : String × EvList :=
  let (s1, o1) := execute_command run linuxVersionCmd1
  if s1 && o1 ≠ "" then (o1, [("os_version", linuxVersionCmd1, o1)])
  else
    let (s2, o2) := execute_command run linuxVersionCmd2
    if s2 && o2 ≠ "" then (o2, [("os_version", linuxVersionCmd2, o2)])
    else
      let (s3, o3) := execute_command run "uname -r"
      if s3 && o3 ≠ "" then (o3, [("os_version", "uname -r", o3)])
      else (pm.version, [("os_version", "platform.version()", pm.version)])

/-- Embedding of SystemDetector._detect_windows_version. -/
def detectWindowsVersion (run : LocalRunner) (pm : PlatMod) : String × EvList :=
  let (s, o) := execute_command run "ver"
  if s && o ≠ "" then (o, [("os_version", "ver", o)])
  else (pm.version, [("os_version", "platform.version()", pm.version)])

/-- Embedding of SystemDetector.detect_os_version. -/
def detectOsVersion (plat : Plat) (run : LocalRunner) (pm : PlatMod) : String × EvList :=
  match plat with
  | .darwin => detectDarwinVersion run pm
  | .linux => detectLinuxVersion run pm
  | .windows => detectWindowsVersion run pm

/-- Embedding of SystemDetector.detect_kernel_version: uname -r on the
Unix-like platforms, ver on Windows, with the platform.release() fallback
when the command fails. -/
def detectKernelVersion (plat : Plat) (run : LocalRunner) (pm : PlatMod) : String × EvList :=
  let cmd :=
    match plat with
    | .darwin => "uname -r"
    | .linux => "uname -r"
    | .windows => "ver"
  let (s, o) := execute_command run cmd
  if s && o ≠ "" then (o, [("kernel", cmd, o)])
  else (pm.release, [("kernel", "platform.release()", pm.release)])

/-- Embedding of SystemDetector._detect_darwin_cpu. -/
def detectDarwinCpu (run : LocalRunner) (pm : PlatMod) : String × EvList :=
  let cmd := "sysctl -n machdep.cpu.brand_string"
  let (s, o) := execute_command run cmd
  if s && o ≠ "" then (o, [("cpu", cmd, o)])
  else
    ((if pm.processor ≠ "" then pm.processor else "Unknown"),
     [("cpu", "platform.processor()", pm.processor)])

def linuxCpuCmd1 : String :=
  "cat /proc/cpuinfo | grep \x27model name\x27 | head -n 1 | cut -d\x27:\x27 -f2"

def linuxCpuCmd2 : String := "lscpu | grep \x27Model name\x27 | cut -d\x27:\x27 -f2"

/-- Embedding of SystemDetector._detect_linux_cpu. -/
def detectLinuxCpu (run : LocalRunner) (pm : PlatMod) : String × EvList :=
  let (s1, o1) := execute_command run linuxCpuCmd1
  if s1 && o1 ≠ "" then (pyStrip o1, [("cpu", linuxCpuCmd1, o1)])
  else
    let (s2, o2) := execute_command run linuxCpuCmd2
    if s2 && o2 ≠ "" then (pyStrip o2, [("cpu", linuxCpuCmd2, o2)])
    else
      ((if pm.processor ≠ "" then pm.processor else "Unknown"),
       [("cpu", "platform.processor()", pm.processor)])

/-- Embedding of SystemDetector._detect_windows_cpu: the wmic output is
split into lines and the second line is used; a single-line output falls
through to the platform.processor() fallback, recording evidence twice in
the Python dict (modelled here as two list entries with the same key). -/
def detectWindowsCpu (run : LocalRunner) (pm : PlatMod) : String × EvList :=
  let cmd := "wmic cpu get name"
  let (s, o) := execute_command run cmd
  if s && o ≠ "" then
    match pySplitNl o with
    | _ :: second :: _ => (pyStrip second, [("cpu", cmd, o)])
    | _ =>
      ((if pm.processor ≠ "" then pm.processor else "Unknown"),
       [("cpu", cmd, o), ("cpu", "platform.processor()", pm.processor)])
  else
    ((if pm.processor ≠ "" then pm.processor else "Unknown"),
     [("cpu", "platform.processor()", pm.processor)])

/-- Embedding of SystemDetector.detect_cpu. -/
def detectCpu (plat : Plat) (run : LocalRunner) (pm : PlatMod) : String × EvList :=
  match plat with
  | .darwin => detectDarwinCpu run pm
  | .linux => detectLinuxCpu run pm
  | .windows => detectWindowsCpu run pm

/-- Embedding of SystemDetector.detect_architecture. -/
def detectArchitecture (plat : Plat) (run : LocalRunner) (pm : PlatMod) : String × EvList :=
  let cmd :=
    match plat with
    | .darwin => "uname -m"
    | .linux => "uname -m"
    | .windows => "echo %PROCESSOR_ARCHITECTURE%"
  let (s, o) := execute_command run cmd
  if s && o ≠ "" then (o, [("architecture", cmd, o)])
  else (pm.machine, [("architecture", "platform.machine()", pm.machine)])

/-- Embedding of SystemDetector.detect_hostname. -/
def detectHostname (run : LocalRunner) (pm : PlatMod) : String × EvList :=
  let (s, o) := execute_command run "hostname"
  if s && o ≠ "" then (o, [("hostname", "hostname", o)])
  else (pm.node, [("hostname", "platform.node()", pm.node)])

/-- The SystemInfo value assembled by SystemDetector.detect_all: the six
declared fields plus the evidence map. -/
structure SystemInfo where
  os : String
  version : String
  kernel : String
  cpu : String
  architecture : String
  hostname : String
  evidence : EvList
deriving Repr, DecidableEq

/-- Embedding of SystemDetector.detect_all: run the six fact detectors in
source order and collect their evidence entries. -/
def detectAllSystem (plat : Plat) (run : LocalRunner) (pm : PlatMod) : SystemInfo :=
  let osR := detectOs plat run
  let verR := detectOsVersion plat run pm
  let kR := detectKernelVersion plat run pm
  let cpuR := detectCpu plat run pm
  let archR := detectArchitecture plat run pm
  let hostR := detectHostname run pm
  ⟨osR.1, verR.1, kR.1, cpuR.1, archR.1, hostR.1,
   osR.2 ++ verR.2 ++ kR.2 ++ cpuR.2 ++ archR.2 ++ hostR.2⟩

/-- Whether the evidence map has an entry under the given fact key. -/
def hasEvKey (si : SystemInfo) (k : String) : Bool :=
  si.evidence.any (fun e => e.1 == k)

/-! ### Local software detection (software_detector.SoftwareDetector)

A software target is its configuration entry: name, vendor, raw family
string, and a per-platform-key mapping to a command / version_command pair
(the empty string models an absent version_command, as in the Python
dict.get defaults). -/

/-- Per-platform detection configuration of a target. -/
structure PlatformConfig where
  command : String
  version_command : String
deriving Repr, DecidableEq

/-- One configured software target. -/
structure SoftwareTarget where
  name : String
  vendor : String
  family : String
  detection : Plat → Option PlatformConfig

/-- Python version if version else Unknown. -/
def orUnknown : Option String → String
  | some v => if v = "" then "Unknown" else v
  | none => "Unknown"

/-- Embedding of SoftwareDetector._extract_version: a configured
version_command (after app_path substitution) wins and yields the first
line of its successful output; otherwise the three-or-four-component
version pattern is searched in the detection output. -/
def extractVersionSD (run : LocalRunner) (pc : PlatformConfig)
    (detection_output : String) : Option String :=
  if pc.version_command = "" then searchDotted34 detection_output
  else
    let version_cmd :=
      if pyIn "\x7bapp_path\x7d" pc.version_command then
        pyReplace pc.version_command "\x7bapp_path\x7d" (pyFirstLine detection_output)
      else pc.version_command
    let (s, o) := execute_command run version_cmd
    if s && o ≠ "" then some (pyFirstLine o) else none

/-- One detected product record of the local path. -/
structure SoftwareRec where
  productName : String
  versionNumber : String
  architecture : String
  productFamily : String
  vendor : String
  installPath : String
  evidence : EvList
deriving Repr, DecidableEq

/-- Embedding of SoftwareDetector.detect_software: platform lookup, the
detection command, then version extraction, family normalization and
record assembly; machine is the platform.machine() value. -/
def detectSoftware (run : LocalRunner) (plat : Plat) (machine : String)
    (target : SoftwareTarget) : Option SoftwareRec :=
  match target.detection plat with
  | none => none
  | some pc =>
    if pc.command = "" then none
    else
      let (s, o) := execute_command run pc.command
      if !s || o = "" then none
      else
        let version := extractVersionSD run pc o
        some ⟨target.name, orUnknown version, machine,
              normalizeProductFamily target.family, target.vendor,
              pyFirstLine o, [("detection", pc.command, o)]⟩

/-- The detect_all loop of SoftwareDetector over an arbitrary per-target
evaluator: an exception increments the failure count and moves on, an
absent result yields nothing, a record is appended; later targets are
always processed. -/
def detectAllLoop (eval : SoftwareTarget → Except String (Option SoftwareRec)) :
    List SoftwareTarget → List SoftwareRec × Nat
  | [] => ([], 0)
  | t :: ts =>
    match eval t with
    | .error _ =>
      let (rs, n) := detectAllLoop eval ts
      (rs, n + 1)
    | .ok none => detectAllLoop eval ts
    | .ok (some r) =>
      let (rs, n) := detectAllLoop eval ts
      (r :: rs, n)

/-- The per-target evaluation used by SoftwareDetector.detect_all: the body
of detect_software is wrapped in its own try/except returning None, so the
typed evaluation never raises. -/
def evalTarget (run : LocalRunner) (plat : Plat) (machine : String)
    (t : SoftwareTarget) : Except String (Option SoftwareRec) :=
  .ok (detectSoftware run plat machine t)

/-- Embedding of SoftwareDetector.detect_all: records in target order plus
the failure count. -/
def detectAllSoftware (run : LocalRunner) (plat : Plat) (machine : String)
    (targets : List SoftwareTarget) : List SoftwareRec × Nat :=
  detectAllLoop (evalTarget run plat machine) targets

/-! ### Remote execution (remote_executor.RemoteExecutor)

The ssh connection parameters are fixed in an SshEnv; the remote side is
modelled by a net oracle giving the subprocess outcome for each remote
command string.  RemoteExecutor state is its connected flag; the embedding
of execute_command additionally returns the list of remote commands it
issued, to reason about what was (not) executed. -/

/-- Connection parameters of a RemoteExecutor. -/
structure SshEnv where
  host : String
  username : Option String
  key_file : Option String
  port : Nat
  timeout : Nat

/-- What the network does for each remote command string. -/
def NetOracle := String → SshOutcome

/-- Run one remote command through utils.execute_ssh_command. -/
def sshRun (env : SshEnv) (net : NetOracle) (cmd : String) : Bool × String × String :=
  execute_ssh_command (fun _ _ => net cmd) env.host cmd env.username env.port
    env.key_file env.timeout

/-- The sentinel probe command of RemoteExecutor.connect. -/
def sentinelCmd : String := "echo \"SSH_TEST_OK\""

/-- RemoteExecutor mutable state: the connected flag. -/
structure RState where
  connected : Bool
deriving Repr, DecidableEq

/-- Embedding of RemoteExecutor.connect: run the sentinel probe; succeed
and mark connected only when it exits successfully and its output contains
SSH_TEST_OK, otherwise leave the state unchanged. -/
def reConnect (env : SshEnv) (net : NetOracle) (st : RState) : Bool × RState :=
  let (s, o, _) := sshRun env net sentinelCmd
  if s && pyIn "SSH_TEST_OK" o then (true, ⟨true⟩) else (false, st)

/-- Embedding of RemoteExecutor.execute_command, instrumented with the
list of remote commands actually issued (the sentinel and/or the requested
command): when not connected, connect is retried once; if it fails the
call fails closed without issuing the requested command. -/
def reExecuteT (env : SshEnv) (net : NetOracle) (st : RState) (cmd : String) :
    (Bool × String × String) × RState × List String :=
  if st.connected then (sshRun env net cmd, st, [cmd])
  else
    match reConnect env net st with
    | (true, st1) => (sshRun env net cmd, st1, [sentinelCmd, cmd])
    | (false, st1) => ((false, "Cannot connect to remote host", ""), st1, [sentinelCmd])

/-- RemoteExecutor.execute_command without the issued-command trace. -/
def reX (env : SshEnv) (net : NetOracle) (st : RState) (cmd : String) :
    (Bool × String × String) × RState :=
  let r := reExecuteT env net st cmd
  (r.1, r.2.1)

/-! ### Remote fingerprinting (remote_executor.RemoteFingerprinter) -/

/-- Remote system evidence entries: fact key, ssh command, remote command,
raw output (the method tag of the Linux entries is omitted). -/
abbrev REvList := List (String × String × String × String)

/-- The system information dictionary built by
RemoteFingerprinter.detect_system_info. -/
structure RSysInfo where
  os : String
  version : String
  kernel : String
  cpu : String
  architecture : String
  hostname : String
  evidence : REvList
deriving Repr, DecidableEq

def rlDistCmd1 : String :=
  "cat /etc/os-release | grep \x27^NAME=\x27 | cut -d\x27=\x27 -f2 | tr -d \x27\"\x27"

def rlDistCmd2 : String := "lsb_release -si 2>/dev/null"

def rlVerCmd1 : String :=
  "cat /etc/os-release | grep \x27^VERSION_ID=\x27 | cut -d\x27=\x27 -f2 | tr -d \x27\"\x27"

def rlVerCmd2 : String := "lsb_release -sr 2>/dev/null"

def rlCpuCmd : String :=
  "cat /proc/cpuinfo | grep \x27model name\x27 | head -n 1 | cut -d\x27:\x27 -f2 | xargs"

/-- Embedding of RemoteFingerprinter._detect_linux_system: the os field is
the whole stripped output of the first successful distribution probe; then
the version waterfall and the cpu probe. -/
def rfDetectLinuxSystem (env : SshEnv) (net : NetOracle) (st : RState)
    (si : RSysInfo) : RSysInfo × RState :=
  let si := { si with os := "Linux" }
  let ((s1, o1, c1), st1) := reX env net st rlDistCmd1
  let (si, st2) :=
    if s1 && o1 ≠ "" then
      ({ si with
          os := pyStrip o1,
          evidence := si.evidence ++ [("os_name", c1, rlDistCmd1, o1)] }, st1)
    else
      let ((s2, o2, c2), st2) := reX env net st1 rlDistCmd2
      if s2 && o2 ≠ "" then
        ({ si with
            os := pyStrip o2,
            evidence := si.evidence ++ [("os_name", c2, rlDistCmd2, o2)] }, st2)
      else (si, st2)
  let ((v1, vo1, vc1), st3) := reX env net st2 rlVerCmd1
  let (si, st4) :=
    if v1 && vo1 ≠ "" then
      ({ si with
          version := vo1,
          evidence := si.evidence ++ [("version", vc1, rlVerCmd1, vo1)] }, st3)
    else
      let ((v2, vo2, vc2), st4) := reX env net st3 rlVerCmd2
      if v2 && vo2 ≠ "" then
        ({ si with
            version := vo2,
            evidence := si.evidence ++ [("version", vc2, rlVerCmd2, vo2)] }, st4)
      else (si, st4)
  let ((cs, co, cc), st5) := reX env net st4 rlCpuCmd
  if cs && co ≠ "" then
    ({ si with
        cpu := co,
        evidence := si.evidence ++ [("cpu", cc, rlCpuCmd, co)] }, st5)
  else (si, st5)

/-- Embedding of RemoteFingerprinter._detect_darwin_system. -/
def rfDetectDarwinSystem (env : SshEnv) (net : NetOracle) (st : RState)
    (si : RSysInfo) : RSysInfo × RState :=
  let si := { si with os := "macOS" }
  let ((vs, vo, vc), st1) := reX env net st "sw_vers -productVersion"
  let si :=
    if vs && vo ≠ "" then
      { si with
          version := vo,
          evidence := si.evidence ++ [("version", vc, "sw_vers -productVersion", vo)] }
    else si
  let ((cs, co, cc), st2) := reX env net st1 "sysctl -n machdep.cpu.brand_string"
  if cs && co ≠ "" then
    ({ si with
        cpu := co,
        evidence := si.evidence ++ [("cpu", cc, "sysctl -n machdep.cpu.brand_string", co)] }, st2)
  else (si, st2)

/-- Embedding of RemoteFingerprinter._detect_generic_unix_system. -/
def rfDetectGenericUnix (env : SshEnv) (net : NetOracle) (st : RState)
    (si : RSysInfo) : RSysInfo × RState :=
  let si := { si with os := "Unix" }
  let ((vs, vo, vc), st1) := reX env net st "uname -v"
  if vs && vo ≠ "" then
    ({ si with
        version := vo,
        evidence := si.evidence ++ [("version", vc, "uname -v", vo)] }, st1)
  else (si, st1)

def winCmd : String := "systeminfo | findstr /B /C:\"OS Name\" /C:\"OS Version\""

/-- The line scan of _detect_windows_system: a labeled line is split at the
first colon and the second piece is taken; a labeled line with no colon
raises an index error, modelled as an error value. -/
def winScanLines : List String → String → String → Except String (String × String)
  | [], os, ver => .ok (os, ver)
  | line :: rest, os, ver =>
    if pyIn "OS Name" line then
      match pySplit1 line ':' with
      | [_, tail] => winScanLines rest (pyStrip tail) ver
      | _ => .error "IndexError: list index out of range"
    else if pyIn "OS Version" line then
      match pySplit1 line ':' with
      | [_, tail] => winScanLines rest os (pyStrip tail)
      | _ => .error "IndexError: list index out of range"
    else winScanLines rest os ver

/-- Embedding of RemoteFingerprinter._detect_windows_system. -/
def rfDetectWindowsSystem (env : SshEnv) (net : NetOracle) (st : RState)
    (si : RSysInfo) : Except String RSysInfo × RState :=
  let ((s, o, c), st1) := reX env net st winCmd
  if s && o ≠ "" then
    match winScanLines (pySplitNl o) si.os si.version with
    | .error e => (.error e, st1)
    | .ok (os, ver) =>
      (.ok { si with
              os := os,
              version := ver,
              evidence := si.evidence ++ [("os_info", c, "systeminfo", o)] }, st1)
  else (.ok si, st1)

/-- The initial remote system information value, every field Unknown. -/
def rsi0 : RSysInfo := ⟨"Unknown", "Unknown", "Unknown", "Unknown", "Unknown", "Unknown", []⟩

/-- Embedding of RemoteFingerprinter.detect_system_info: route on the
uname kernel name (falling back to the Windows probe, whose parse can
raise), then the kernel, architecture and hostname probes. -/
def rfDetectSystemInfo (env : SshEnv) (net : NetOracle) (st : RState) :
    Except String RSysInfo × RState :=
  let ((s, o, c), st1) := reX env net st "uname -s"
  let routed :=
    if s && o ≠ "" then
      let os_type := pyLower (pyStrip o)
      let si := { rsi0 with evidence := [("os_type", c, "uname -s", o)] }
      if os_type = "darwin" then
        let (si, st2) := rfDetectDarwinSystem env net st1 si
        (Except.ok si, st2)
      else if os_type = "linux" then
        let (si, st2) := rfDetectLinuxSystem env net st1 si
        (Except.ok si, st2)
      else
        let (si, st2) := rfDetectGenericUnix env net st1 si
        (Except.ok si, st2)
    else rfDetectWindowsSystem env net st1 rsi0
  match routed with
  | (.error e, st2) => (.error e, st2)
  | (.ok si, st2) =>
    let ((ks, ko, kc), st3) := reX env net st2 "uname -r"
    let si :=
      if ks && ko ≠ "" then
        { si with kernel := ko, evidence := si.evidence ++ [("kernel", kc, "uname -r", ko)] }
      else si
    let ((as_, ao, ac), st4) := reX env net st3 "uname -m"
    let si :=
      if as_ && ao ≠ "" then
        { si with
            architecture := ao,
            evidence := si.evidence ++ [("architecture", ac, "uname -m", ao)] }
      else si
    let ((hs, ho, hc), st5) := reX env net st4 "hostname"
    let si :=
      if hs && ho ≠ "" then
        { si with
            hostname := ho,
            evidence := si.evidence ++ [("hostname", hc, "hostname", ho)] }
      else si
    (.ok si, st5)

/-- Remote software evidence entries: key, ssh command, remote command,
raw output, success flag. -/
abbrev RSwEvList := List (String × String × String × String × Bool)

/-- Embedding of RemoteFingerprinter.detect_software: detection probe with
evidence, then the optional version command after app_path substitution;
the remote version is the whole stripped output. -/
def rfDetectSoftware (env : SshEnv) (net : NetOracle) (st : RState)
    (detection_cmd : String) (version_cmd : Option String) :
    (Bool × String × Option String × RSwEvList) × RState :=
  let ((s, o, c), st1) := reX env net st detection_cmd
  let ev : RSwEvList := [("detection", c, detection_cmd, o, s)]
  if !s || o = "" then ((false, "", none, ev), st1)
  else
    match version_cmd with
    | none => ((true, o, none, ev), st1)
    | some vc =>
      let vc :=
        if pyIn "\x7bapp_path\x7d" vc then pyReplace vc "\x7bapp_path\x7d" (pyFirstLine o)
        else vc
      let ((vs, vo, vsc), st2) := reX env net st1 vc
      let ev := ev ++ [("version", vsc, vc, vo, vs)]
      ((true, o, if vs && vo ≠ "" then some (pyStrip vo) else none, ev), st2)

/-! ### The main remote scan (main.FingerprintAgent) -/

/-- One software record of the remote path; the family is copied from the
configuration as is. -/
structure RSoftwareRec where
  productName : String
  versionNumber : String
  architecture : String
  productFamily : String
  vendor : String
  installPath : String
  evidence : RSwEvList
deriving Repr, DecidableEq

/-- The per-target platform loop of FingerprintAgent._detect_remote_software:
darwin, linux, windows are tried in order and the first platform whose
detection succeeds wins; the record keeps the raw configured family. -/
def drsPlatLoop (env : SshEnv) (net : NetOracle) (target : SoftwareTarget) :
    RState → List Plat → Option RSoftwareRec × RState
  | st, [] => (none, st)
  | st, p :: ps =>
    match target.detection p with
    | none => drsPlatLoop env net target st ps
    | some pc =>
      if pc.command = "" then drsPlatLoop env net target st ps
      else
        let ((found, output, version, ev), st1) :=
          rfDetectSoftware env net st pc.command
            (if pc.version_command = "" then none else some pc.version_command)
        if found then
          let ((ars, aro, _), st2) := reX env net st1 "uname -m"
          let architecture := if ars then pyStrip aro else "Unknown"
          (some ⟨target.name, orUnknown version, architecture, target.family,
                 target.vendor, pyFirstLine output, ev⟩, st2)
        else drsPlatLoop env net target st1 ps

/-- Embedding of FingerprintAgent._detect_remote_software over the loaded
target list. -/
def detectRemoteSoftware (env : SshEnv) (net : NetOracle) :
    RState → List SoftwareTarget → List RSoftwareRec × RState
  | st, [] => ([], st)
  | st, t :: ts =>
    match drsPlatLoop env net t st [Plat.darwin, Plat.linux, Plat.windows] with
    | (some rec, st1) =>
      let (rs, st2) := detectRemoteSoftware env net st1 ts
      (rec :: rs, st2)
    | (none, st1) => detectRemoteSoftware env net st1 ts

/-- The report of a remote scan, without the metadata glue. -/
structure RReport where
  system_info : RSysInfo
  software_inventory : List RSoftwareRec
deriving Repr, DecidableEq

/-- Embedding of FingerprintAgent.run_remote_scan: a failed connect
returns no report; an exception escaping the scan body (the Windows parse)
is caught and also returns no report; otherwise the report is assembled. -/
def runRemoteScan (env : SshEnv) (net : NetOracle) (targets : List SoftwareTarget) :
    Option RReport :=
  match reConnect env net ⟨false⟩ with
  | (false, _) => none
  | (true, st1) =>
    match rfDetectSystemInfo env net st1 with
    | (.error _, _) => none
    | (.ok si, st2) =>
      let (inv, _) := detectRemoteSoftware env net st2 targets
      some ⟨si, inv⟩

/-! ### Specification predicates and concrete fixtures

Predicates that state claim properties, the version-shape checker used to
characterise the regex search, and concrete oracles used to evaluate the
embeddings at specific inputs. -/

/-- The evidence keys under which the local detector records each fact:
linux_distro for the os field, os_version for the version field, and the
field name itself for the rest. -/
def c1Claim (si : SystemInfo) : Prop :=
  (si.os ≠ "Unknown" → hasEvKey si "linux_distro" = true) ∧
  (si.version ≠ "Unknown" → hasEvKey si "os_version" = true) ∧
  (si.kernel ≠ "Unknown" → hasEvKey si "kernel" = true) ∧
  (si.cpu ≠ "Unknown" → hasEvKey si "cpu" = true) ∧
  (si.architecture ≠ "Unknown" → hasEvKey si "architecture" = true) ∧
  (si.hostname ≠ "Unknown" → hasEvKey si "hostname" = true)

/-- The configured-command branch of _extract_version on its own: app_path
substitution, execution, first line of a successful output.  It never
consults the version regex. -/
def versionFromConfiguredCommand (run : LocalRunner) (pc : PlatformConfig)
    (detection_output : String) : Option String :=
  let version_cmd :=
    if pyIn "\x7bapp_path\x7d" pc.version_command then
      pyReplace pc.version_command "\x7bapp_path\x7d" (pyFirstLine detection_output)
    else pc.version_command
  let (s, o) := execute_command run version_cmd
  if s && o ≠ "" then some (pyFirstLine o) else none

/-- All characters are decimal digits. -/
def digitsOnly (l : List Char) : Bool := l.all (fun c => c.isDigit)

/-- Shape of a dotted numeric version string: splitting at the dots gives
three or four pieces, all nonempty and all-digit. -/
def versionShape (v : String) : Prop :=
  ((splitOnChar '.' v.data).length = 3 ∨ (splitOnChar '.' v.data).length = 4) ∧
  ∀ p ∈ splitOnChar '.' v.data, p ≠ [] ∧ digitsOnly p = true

/-- Platform-module fallback values used in concrete runs. -/
def pmFix : PlatMod := ⟨"10.0", "14.1", "23.1.0", "Apple M1", "arm64", "mac.local"⟩

/-- A local runner on which every command fails with no output. -/
def runAllFail : LocalRunner := fun _ _ => .finished 1 "" ""

/-- A local runner whose os-release NAME probe answers with a multi-word
distribution value. -/
def runUbuntuLocal : LocalRunner := fun c _ =>
  if c = linuxDistroCmd1 then .finished 0 "Ubuntu 22.04 LTS" "" else .finished 1 "" ""

/-- A local runner where every command times out. -/
def runTimedOut : LocalRunner := fun _ _ => .timedOut

/-- A local runner where every command raises. -/
def runRaises : LocalRunner := fun _ _ => .raised "boom"

/-- An ssh runner where every invocation times out. -/
def srunTimedOut : SshRunner := fun _ _ => .timedOut

/-- An ssh runner where the ssh client is missing. -/
def srunNoClient : SshRunner := fun _ _ => .fileNotFound

/-- An ssh runner where every invocation raises. -/
def srunRaises : SshRunner := fun _ _ => .raised "boom"

/-- Fixed connection parameters for concrete remote runs. -/
def envFix : SshEnv := ⟨"host1", some "admin", none, 22, 30⟩

/-- A remote side on which every command fails with no output. -/
def netAllFail : NetOracle := fun _ => .finished 1 "" ""

/-- A remote side whose sentinel probe succeeds but whose systeminfo
output has a labeled line without a colon, making the Windows parse
raise. -/
def netWinNoColon : NetOracle := fun c =>
  if c = sentinelCmd then .finished 0 "SSH_TEST_OK" ""
  else if c = winCmd then .finished 0 "OS Name  Microsoft Windows" ""
  else .finished 1 "" ""

/-- A remote side whose os-release NAME probe answers with a multi-word
distribution value. -/
def netUbuntuRemote : NetOracle := fun c =>
  if c = rlDistCmd1 then .finished 0 "Ubuntu 22.04 LTS" "" else .finished 1 "" ""

/-- A remote side where the sentinel probe exits 0 without the marker
string. -/
def netZeroNoMarker : NetOracle := fun _ => .finished 0 "hello" ""

/-- A target whose configured family string is not a known product
family. -/
def widgetTarget : SoftwareTarget :=
  ⟨"Widget", "Acme", "Widget Tool",
   fun p => if p = Plat.linux then some ⟨"which widget", ""⟩ else none⟩

/-- A remote side detecting the widget target. -/
def netWidget : NetOracle := fun c =>
  if c = sentinelCmd then .finished 0 "SSH_TEST_OK" ""
  else if c = "which widget" then .finished 0 "/usr/bin/widget" ""
  else if c = "uname -m" then .finished 0 "x86_64" ""
  else .finished 1 "" ""

/-- A local runner detecting the widget target. -/
def runWidget : LocalRunner := fun c _ =>
  if c = "which widget" then .finished 0 "/usr/bin/widget" "" else .finished 1 "" ""

/-- A target with no version command whose detection output carries a
two-component version number. -/
def myToolTarget : SoftwareTarget :=
  ⟨"MyTool", "Acme", "Other",
   fun p => if p = Plat.linux then some ⟨"mytool status", ""⟩ else none⟩

/-- A local runner whose detection output carries a two-component version
number. -/
def runMyTool : LocalRunner := fun c _ =>
  if c = "mytool status" then .finished 0 "MyTool 7.5 installed" "" else .finished 1 "" ""

/-- A target configured only for the darwin platform key. -/
def noLinuxTarget : SoftwareTarget :=
  ⟨"MacThing", "Acme", "IDE",
   fun p => if p = Plat.darwin then some ⟨"ls /Applications", ""⟩ else none⟩

/-- The record the local path produces for the widget target. -/
def widgetLocalRec : SoftwareRec :=
  ⟨"Widget", "Unknown", "x86_64", "Other", "Acme", "/usr/bin/widget",
   [("detection", "which widget", "/usr/bin/widget")]⟩

/-- A local runner detecting git with a configured version command. -/
def runGit : LocalRunner := fun c _ =>
  if c = "git --version" then .finished 0 "git version 2.39.2" ""
  else if c = "which git" then .finished 0 "/usr/bin/git" ""
  else .finished 1 "" ""

/-- The record the remote path produces for the widget target. -/
def widgetRemoteRec : RSoftwareRec :=
  ⟨"Widget", "Unknown", "x86_64", "Widget Tool", "Acme", "/usr/bin/widget",
   [("detection",
     pyJoin " " (buildSshParts envFix.host "which widget" envFix.username
       envFix.port envFix.key_file envFix.timeout),
     "which widget", "/usr/bin/widget", true)]⟩

/-! ### Claim C9: shape of the ssh argument vector -/

/-- Claim C9: for every host, command, username, key file, port and
timeout, the ssh argument vector built by execute_ssh_command is exactly
ssh, the four fixed -o options with the connect timeout, then -p port
exactly when the port differs from 22, then -i key_file exactly when a key
file is provided, then user@host when a username is given and host
otherwise, then the command. -/
theorem claim_C9 (host command : String) (username key_file : Option String)
    (port timeout : Nat) :
    buildSshParts host command username port key_file timeout =
      ["ssh",
       "-o", "BatchMode=yes",
       "-o", "StrictHostKeyChecking=no",
       "-o", "UserKnownHostsFile=/dev/null",
       "-o", "ConnectTimeout=" ++ toString timeout]
      ++ (if port ≠ 22 then ["-p", toString port] else [])
      ++ (if pyTruthyOpt key_file then ["-i", key_file.getD ""] else [])
      ++ [(if pyTruthyOpt username then username.getD "" ++ "@" ++ host else host),
          command] := by
  unfold buildSshParts
  by_cases hp : port = 22 <;> by_cases hk : pyTruthyOpt key_file <;>
    by_cases hu : pyTruthyOpt username <;> simp [hp, hk, hu]

/-! ### Claim C5: the transports are total and fail closed -/

/-- Claim C5: for every command and timeout, execute_command and
execute_ssh_command are total functions of the process outcome; on timeout
expiry, on a missing ssh client, and on a raised exception they return
success false paired with a human-readable message instead of propagating
the error. -/
theorem claim_C5 (run : LocalRunner) (cmd : String) (t : Nat)
    (srun : SshRunner) (host rcmd : String) (u k : Option String) (p n : Nat) :
    (run cmd t = .timedOut →
      execute_command run cmd t =
        (false, "Command timed out after " ++ toString t ++ " seconds")) ∧
    (∀ msg, run cmd t = .raised msg →
      execute_command run cmd t = (false, "Error executing command: " ++ msg)) ∧
    (srun (buildSshParts host rcmd u p k n) n = .timedOut →
      execute_ssh_command srun host rcmd u p k n =
        (false, "SSH command timed out after " ++ toString n ++ " seconds",
         pyJoin " " (buildSshParts host rcmd u p k n))) ∧
    (srun (buildSshParts host rcmd u p k n) n = .fileNotFound →
      execute_ssh_command srun host rcmd u p k n =
        (false, "SSH client not found. Install OpenSSH.",
         pyJoin " " (buildSshParts host rcmd u p k n))) ∧
    (∀ msg, srun (buildSshParts host rcmd u p k n) n = .raised msg →
      execute_ssh_command srun host rcmd u p k n =
        (false, "SSH error: " ++ msg,
         pyJoin " " (buildSshParts host rcmd u p k n))) := by
  refine ⟨?_, ?_, ?_, ?_, ?_⟩
  · intro h; unfold execute_command; rw [h]
  · intro msg h; unfold execute_command; rw [h]
  · intro h; simp [execute_ssh_command, h]
  · intro h; simp [execute_ssh_command, h]
  · intro msg h; simp [execute_ssh_command, h]

/-- Witness for claim C5 at concrete runners: a timed-out local command, a
raised local exception, and a timed-out, client-less and raising ssh
invocation all fail closed. -/
theorem claim_C5_witness :
    execute_command runTimedOut "ls" 30 =
      (false, "Command timed out after 30 seconds") ∧
    execute_command runRaises "ls" 30 =
      (false, "Error executing command: boom") ∧
    execute_ssh_command srunTimedOut "h" "ls" none 22 none 30 =
      (false, "SSH command timed out after 30 seconds",
       pyJoin " " (buildSshParts "h" "ls" none 22 none 30)) ∧
    execute_ssh_command srunNoClient "h" "ls" none 22 none 30 =
      (false, "SSH client not found. Install OpenSSH.",
       pyJoin " " (buildSshParts "h" "ls" none 22 none 30)) ∧
    execute_ssh_command srunRaises "h" "ls" none 22 none 30 =
      (false, "SSH error: boom",
       pyJoin " " (buildSshParts "h" "ls" none 22 none 30)) :=
  ⟨(claim_C5 runTimedOut "ls" 30 srunTimedOut "h" "ls" none none 22 30).1 rfl,
   (claim_C5 runRaises "ls" 30 srunTimedOut "h" "ls" none none 22 30).2.1 "boom" rfl,
   (claim_C5 runTimedOut "ls" 30 srunTimedOut "h" "ls" none none 22 30).2.2.1 rfl,
   (claim_C5 runTimedOut "ls" 30 srunNoClient "h" "ls" none none 22 30).2.2.2.1 rfl,
   (claim_C5 runTimedOut "ls" 30 srunRaises "h" "ls" none none 22 30).2.2.2.2 "boom" rfl⟩

/-! ### Claim C10: connect requires exit 0 and the sentinel marker -/

/-- Claim C10: connect marks the transport connected and returns true
exactly when the sentinel probe exits successfully and its output contains
SSH_TEST_OK; a sentinel run that exits 0 without the marker returns false
and leaves the state unchanged. -/
theorem claim_C10 (env : SshEnv) (net : NetOracle) (st : RState) :
    ((reConnect env net st).1 = true ↔
      (sshRun env net sentinelCmd).1 = true ∧
        pyIn "SSH_TEST_OK" (sshRun env net sentinelCmd).2.1 = true) ∧
    ((sshRun env net sentinelCmd).1 = true →
      pyIn "SSH_TEST_OK" (sshRun env net sentinelCmd).2.1 = false →
      reConnect env net st = (false, st)) ∧
    ((reConnect env net st).1 = true → (reConnect env net st).2.connected = true) := by
  unfold reConnect
  rcases h : sshRun env net sentinelCmd with ⟨s, o, c⟩
  by_cases hs : s = true <;> by_cases ho : pyIn "SSH_TEST_OK" o = true <;>
    simp [hs, ho]

/-- Witness for claim C10: a sentinel run that exits 0 with output hello
(no marker) leaves connect failed with the state unchanged. -/
theorem claim_C10_witness :
    reConnect envFix netZeroNoMarker ⟨false⟩ = (false, ⟨false⟩) :=
  (claim_C10 envFix netZeroNoMarker ⟨false⟩).2.1 (by decide) (by decide)

/-! ### Claim C7: auto-retry of the connectivity check -/

/-- Claim C7: a call to RemoteExecutor.execute_command made while the
transport is not marked connected retries the connectivity check exactly
once before the call (the issued-command trace holds one sentinel probe);
if that retry fails the call fails closed with success false and a
descriptive message, without issuing the requested command, and if it
succeeds the requested command is issued after the sentinel. -/
theorem claim_C7 (env : SshEnv) (net : NetOracle) (st : RState) (cmd : String)
    (hst : st.connected = false) :
    (¬ ((sshRun env net sentinelCmd).1 = true ∧
        pyIn "SSH_TEST_OK" (sshRun env net sentinelCmd).2.1 = true) →
      reExecuteT env net st cmd =
        ((false, "Cannot connect to remote host", ""), st, [sentinelCmd])) ∧
    (((sshRun env net sentinelCmd).1 = true ∧
        pyIn "SSH_TEST_OK" (sshRun env net sentinelCmd).2.1 = true) →
      reExecuteT env net st cmd = (sshRun env net cmd, ⟨true⟩, [sentinelCmd, cmd])) := by
  unfold reExecuteT reConnect
  rcases h : sshRun env net sentinelCmd with ⟨s, o, c⟩
  by_cases hs : s = true <;> by_cases ho : pyIn "SSH_TEST_OK" o = true <;>
    simp [hst, hs, ho]

/-- Witness for claim C7: with every remote command failing, a call on an
unconnected transport issues only the sentinel probe and fails closed. -/
theorem claim_C7_witness :
    reExecuteT envFix netAllFail ⟨false⟩ "uname -s" =
      ((false, "Cannot connect to remote host", ""), ⟨false⟩, [sentinelCmd]) :=
  (claim_C7 envFix netAllFail ⟨false⟩ "uname -s" rfl).1 (by decide)

/-! ### Claim C1: declared fields and evidence entries of detect_all -/

theorem detectOsVersion_key (plat : Plat) (run : LocalRunner) (pm : PlatMod) :
    (detectOsVersion plat run pm).2.any (fun e => e.1 == "os_version") = true := by
  cases plat <;>
    simp only [detectOsVersion, detectDarwinVersion, detectLinuxVersion,
      detectWindowsVersion] <;>
    (repeat' split) <;> simp

theorem detectKernelVersion_key (plat : Plat) (run : LocalRunner) (pm : PlatMod) :
    (detectKernelVersion plat run pm).2.any (fun e => e.1 == "kernel") = true := by
  cases plat <;> simp only [detectKernelVersion] <;> (repeat' split) <;> simp

theorem detectCpu_key (plat : Plat) (run : LocalRunner) (pm : PlatMod) :
    (detectCpu plat run pm).2.any (fun e => e.1 == "cpu") = true := by
  cases plat <;>
    simp only [detectCpu, detectDarwinCpu, detectLinuxCpu, detectWindowsCpu] <;>
    (repeat' split) <;> simp

theorem detectArchitecture_key (plat : Plat) (run : LocalRunner) (pm : PlatMod) :
    (detectArchitecture plat run pm).2.any (fun e => e.1 == "architecture") = true := by
  cases plat <;> simp only [detectArchitecture] <;> (repeat' split) <;> simp

theorem detectHostname_key (run : LocalRunner) (pm : PlatMod) :
    (detectHostname run pm).2.any (fun e => e.1 == "hostname") = true := by
  simp only [detectHostname]
  (repeat' split) <;> simp

theorem detectLinuxDistro_key (run : LocalRunner)
    (h : (detectLinuxDistro run).1 ≠ "Linux") :
    (detectLinuxDistro run).2.any (fun e => e.1 == "linux_distro") = true := by
  revert h
  simp only [detectLinuxDistro]
  (repeat' split) <;> simp

/-- Claim C1 as frozen: every non-Unknown field of the SystemInfo returned
by detect_all has an evidence entry recorded for it, under the key the
detector uses for that fact. -/
theorem claim_C1_counterexample :
    ¬ c1Claim (detectAllSystem Plat.darwin runAllFail pmFix) ∧
    (detectAllSystem Plat.darwin runAllFail pmFix).os = "macOS" ∧
    (detectAllSystem Plat.darwin runAllFail pmFix).evidence.map (fun e => e.1) =
      ["os_version", "kernel", "cpu", "architecture", "hostname"] := by
  refine ⟨?_, rfl, rfl⟩
  intro h
  exact absurd (h.1 (by decide)) (by decide)

/-- Claim C1, amended: detect_all always returns all six declared fields
(by construction of SystemInfo); the version, kernel, cpu, architecture and
hostname facts always carry an evidence entry, and the os fact carries one
on Linux whenever the value is not the hard-coded fallback Linux — the
hard-coded macOS and Windows os values carry no evidence entry. -/
theorem claim_C1_amended (plat : Plat) (run : LocalRunner) (pm : PlatMod) :
    hasEvKey (detectAllSystem plat run pm) "os_version" = true ∧
    hasEvKey (detectAllSystem plat run pm) "kernel" = true ∧
    hasEvKey (detectAllSystem plat run pm) "cpu" = true ∧
    hasEvKey (detectAllSystem plat run pm) "architecture" = true ∧
    hasEvKey (detectAllSystem plat run pm) "hostname" = true ∧
    (plat = Plat.linux → (detectAllSystem plat run pm).os ≠ "Linux" →
      hasEvKey (detectAllSystem plat run pm) "linux_distro" = true) := by
  refine ⟨?_, ?_, ?_, ?_, ?_, ?_⟩
  · simp [hasEvKey, detectAllSystem, List.any_append, detectOsVersion_key]
  · simp [hasEvKey, detectAllSystem, List.any_append, detectKernelVersion_key]
  · simp [hasEvKey, detectAllSystem, List.any_append, detectCpu_key]
  · simp [hasEvKey, detectAllSystem, List.any_append, detectArchitecture_key]
  · simp [hasEvKey, detectAllSystem, List.any_append, detectHostname_key]
  · intro hplat hos
    subst hplat
    have hos' : (detectLinuxDistro run).1 ≠ "Linux" := by
      simpa [detectAllSystem, detectOs] using hos
    simp [hasEvKey, detectAllSystem, List.any_append, detectOs,
      detectLinuxDistro_key run hos']

/-- Witness for the amended claim C1: a Linux run whose distro probe
answers Ubuntu records linux_distro evidence. -/
theorem claim_C1_witness :
    hasEvKey (detectAllSystem Plat.linux runUbuntuLocal pmFix) "linux_distro" = true :=
  (claim_C1_amended Plat.linux runUbuntuLocal pmFix).2.2.2.2.2 rfl (by decide)

/-! ### Claim C2: product family normalization on both scan paths -/

theorem detectSoftware_family (run : LocalRunner) (plat : Plat) (machine : String)
    (target : SoftwareTarget) (r : SoftwareRec)
    (h : detectSoftware run plat machine target = some r) :
    r.productFamily = normalizeProductFamily target.family := by
  revert h
  unfold detectSoftware
  (repeat' split) <;> intro h <;>
    first
      | (simp only [Option.some.injEq] at h; subst h; rfl)
      | simp_all

theorem drsPlatLoop_family (env : SshEnv) (net : NetOracle) (target : SoftwareTarget) :
    ∀ (ps : List Plat) (st : RState) (r : RSoftwareRec) (st' : RState),
      drsPlatLoop env net target st ps = (some r, st') →
      r.productFamily = target.family := by
  intro ps
  induction ps with
  | nil => intro st r st' h; simp [drsPlatLoop] at h
  | cons p ps ih =>
    intro st r st' h
    rw [drsPlatLoop] at h
    (repeat' split at h) <;>
      first
        | exact ih _ _ _ h
        | (simp only [Prod.mk.injEq, Option.some.injEq] at h
           obtain ⟨rfl, -⟩ := h
           rfl)

theorem normalize_canonical : ∀ f ∈ productFamilyValues, normalizeProductFamily f = f := by
  intro f hf
  fin_cases hf <;> rfl

/-- Claim C2, amended: the local path records the normalized product
family (canonical values map to themselves and an unrecognized family such
as Widget Tool maps to Other), but the remote path copies the raw
configured family string without normalizing it. -/
theorem claim_C2_amended :
    (∀ (run : LocalRunner) (plat : Plat) (machine : String)
       (target : SoftwareTarget) (r : SoftwareRec),
       detectSoftware run plat machine target = some r →
       r.productFamily = normalizeProductFamily target.family) ∧
    (∀ f ∈ productFamilyValues, normalizeProductFamily f = f) ∧
    normalizeProductFamily "Widget Tool" = "Other" ∧
    (∀ (env : SshEnv) (net : NetOracle) (target : SoftwareTarget)
       (ps : List Plat) (st : RState) (r : RSoftwareRec) (st' : RState),
       drsPlatLoop env net target st ps = (some r, st') →
       r.productFamily = target.family) :=
  ⟨detectSoftware_family, normalize_canonical, rfl,
   fun env net target => drsPlatLoop_family env net target⟩

/-- Claim C2 as frozen fails on the remote path: the Widget Tool family
reaches the remote SoftwareRecord unnormalized instead of as Other. -/
theorem claim_C2_counterexample :
    drsPlatLoop envFix netWidget widgetTarget ⟨true⟩
        [Plat.darwin, Plat.linux, Plat.windows] = (some widgetRemoteRec, ⟨true⟩) ∧
    widgetRemoteRec.productFamily = "Widget Tool" ∧
    normalizeProductFamily widgetTarget.family = "Other" ∧
    widgetRemoteRec.productFamily ≠ normalizeProductFamily widgetTarget.family :=
  ⟨rfl, rfl, rfl, by decide⟩

/-- Witness for the amended claim C2 at the widget target: the local
record is normalized to Other, a canonical family is left unchanged, and
the remote record keeps the raw family. -/
theorem claim_C2_witness :
    widgetLocalRec.productFamily = normalizeProductFamily widgetTarget.family ∧
    normalizeProductFamily "Database" = "Database" ∧
    widgetRemoteRec.productFamily = widgetTarget.family :=
  ⟨claim_C2_amended.1 runWidget Plat.linux "x86_64" widgetTarget widgetLocalRec rfl,
   claim_C2_amended.2.1 "Database" (by decide),
   claim_C2_amended.2.2.2 envFix netWidget widgetTarget
     [Plat.darwin, Plat.linux, Plat.windows] ⟨true⟩ widgetRemoteRec ⟨true⟩ rfl⟩

/-! ### Claim C4: first-token extraction of the Linux OS name -/

theorem reX_connected (env : SshEnv) (net : NetOracle) {st : RState}
    (hc : st.connected = true) (cmd : String) :
    reX env net st cmd = (sshRun env net cmd, st) := by
  unfold reX reExecuteT
  simp [hc]

theorem detectLinuxDistro_first (run : LocalRunner)
    (h1 : (execute_command run linuxDistroCmd1).1 = true)
    (h2 : (execute_command run linuxDistroCmd1).2 ≠ "") :
    (detectLinuxDistro run).1 = pyFirstTok (execute_command run linuxDistroCmd1).2 := by
  unfold detectLinuxDistro
  rcases hE : execute_command run linuxDistroCmd1 with ⟨s, o⟩
  rw [hE] at h1 h2
  simp only at h1 h2
  simp [h1, h2]

theorem rfLinux_os (env : SshEnv) (net : NetOracle) (st : RState) (si : RSysInfo)
    (hc : st.connected = true)
    (h1 : (sshRun env net rlDistCmd1).1 = true)
    (h2 : (sshRun env net rlDistCmd1).2.1 ≠ "") :
    (rfDetectLinuxSystem env net st si).1.os = pyStrip (sshRun env net rlDistCmd1).2.1 := by
  unfold rfDetectLinuxSystem
  simp only [reX_connected env net hc]
  rcases hE : sshRun env net rlDistCmd1 with ⟨s, o, c⟩
  rw [hE] at h1 h2
  simp only at h1 h2
  subst h1
  simp [h2]
  (repeat' split) <;> simp

/-- Claim C4, amended: the local os-release method extracts the first
whitespace-delimited token of the probe value, but the remote Linux path
records the whole stripped probe output as the OS name (as does the local
lsb_release method). -/
theorem claim_C4_amended (run : LocalRunner) (env : SshEnv) (net : NetOracle)
    (st : RState) (si : RSysInfo) :
    ((execute_command run linuxDistroCmd1).1 = true →
      (execute_command run linuxDistroCmd1).2 ≠ "" →
      (detectLinuxDistro run).1 = pyFirstTok (execute_command run linuxDistroCmd1).2) ∧
    (st.connected = true →
      (sshRun env net rlDistCmd1).1 = true →
      (sshRun env net rlDistCmd1).2.1 ≠ "" →
      (rfDetectLinuxSystem env net st si).1.os = pyStrip (sshRun env net rlDistCmd1).2.1) :=
  ⟨detectLinuxDistro_first run, fun hc => rfLinux_os env net st si hc⟩

/-- Claim C4 as frozen fails on the remote path: a multi-word probe value
is recorded whole, not reduced to its first token. -/
theorem claim_C4_counterexample :
    (rfDetectLinuxSystem envFix netUbuntuRemote ⟨true⟩ rsi0).1.os = "Ubuntu 22.04 LTS" ∧
    pyFirstTok "Ubuntu 22.04 LTS" = "Ubuntu" ∧
    (rfDetectLinuxSystem envFix netUbuntuRemote ⟨true⟩ rsi0).1.os ≠ "Ubuntu" :=
  ⟨rfl, rfl, by decide⟩

/-- Witness for the amended claim C4: the local probe answering a
multi-word Ubuntu value yields the first token locally, the whole value
remotely. -/
theorem claim_C4_witness :
    (detectLinuxDistro runUbuntuLocal).1 =
      pyFirstTok (execute_command runUbuntuLocal linuxDistroCmd1).2 ∧
    (rfDetectLinuxSystem envFix netUbuntuRemote ⟨true⟩ rsi0).1.os =
      pyStrip (sshRun envFix netUbuntuRemote rlDistCmd1).2.1 :=
  ⟨(claim_C4_amended runUbuntuLocal envFix netUbuntuRemote ⟨true⟩ rsi0).1
     (by decide) (by decide),
   (claim_C4_amended runUbuntuLocal envFix netUbuntuRemote ⟨true⟩ rsi0).2
     rfl (by decide) (by decide)⟩

/-! ### Claim C6: the no-report outcomes of run_remote_scan -/

/-- Claim C6, amended: a failed connectivity sentinel always yields the
no-report outcome (never a partial report), and when the sentinel succeeds
the only other no-report outcome is an exception escaping the scan body
(the Windows systeminfo parse); every other probe failure degrades into
Unknown fields or omitted records inside a returned report. -/
theorem claim_C6_amended (env : SshEnv) (net : NetOracle) (targets : List SoftwareTarget) :
    ((reConnect env net ⟨false⟩).1 = false → runRemoteScan env net targets = none) ∧
    ((reConnect env net ⟨false⟩).1 = true →
      (runRemoteScan env net targets = none ↔
        ∃ e, (rfDetectSystemInfo env net (reConnect env net ⟨false⟩).2).1 =
          Except.error e)) := by
  unfold runRemoteScan
  rcases hC : reConnect env net ⟨false⟩ with ⟨b, st1⟩
  simp only
  constructor
  · intro hb; subst hb; rfl
  · intro hb
    subst hb
    rcases hD : rfDetectSystemInfo env net st1 with ⟨res, st2⟩
    cases res <;> simp [hD]

/-- Claim C6 as frozen fails: a scan whose sentinel succeeds can still
return no report, through the Windows parse exception. -/
theorem claim_C6_counterexample :
    (reConnect envFix netWinNoColon ⟨false⟩).1 = true ∧
    runRemoteScan envFix netWinNoColon [] = none :=
  ⟨rfl, rfl⟩

/-- Witness for the amended claim C6: with every remote command failing,
the sentinel fails and the scan returns no report. -/
theorem claim_C6_witness : runRemoteScan envFix netAllFail [] = none :=
  (claim_C6_amended envFix netAllFail []).1 (by decide)

/-! ### Claim C8: failure isolation across software targets -/

/-- Claim C8: a target whose evaluation fails or raises never prevents
later targets from being recorded (their records survive any prefix of
targets); a target with no entry for the platform key yields no record and
leaves the failure count untouched; a target whose detection command fails
likewise yields no record and stops nothing. -/
theorem claim_C8 :
    (∀ (eval : SoftwareTarget → Except String (Option SoftwareRec))
       (pre ts : List SoftwareTarget) (r : SoftwareRec),
       r ∈ (detectAllLoop eval ts).1 → r ∈ (detectAllLoop eval (pre ++ ts)).1) ∧
    (∀ (run : LocalRunner) (plat : Plat) (machine : String)
       (t : SoftwareTarget) (ts : List SoftwareTarget),
       t.detection plat = none →
       detectAllSoftware run plat machine (t :: ts) =
         detectAllSoftware run plat machine ts) ∧
    (∀ (run : LocalRunner) (plat : Plat) (machine : String)
       (t : SoftwareTarget) (pc : PlatformConfig) (ts : List SoftwareTarget),
       t.detection plat = some pc → pc.command ≠ "" →
       (execute_command run pc.command).1 = false →
       detectAllSoftware run plat machine (t :: ts) =
         detectAllSoftware run plat machine ts) := by
  refine ⟨?_, ?_, ?_⟩
  · intro eval pre ts r h
    induction pre with
    | nil => simpa using h
    | cons p pre ih =>
      simp only [List.cons_append, detectAllLoop]
      cases eval p with
      | error e => simpa using ih
      | ok o =>
        cases o with
        | none => simpa using ih
        | some rec => simpa using Or.inr ih
  · intro run plat machine t ts h
    simp [detectAllSoftware, detectAllLoop, evalTarget, detectSoftware, h]
  · intro run plat machine t pc ts h hcmd hfail
    rcases hE : execute_command run pc.command with ⟨s, o⟩
    rw [hE] at hfail
    simp only at hfail
    subst hfail
    simp [detectAllSoftware, detectAllLoop, evalTarget, detectSoftware, h, hcmd, hE]

/-- Witness for claim C8: a not-applicable target and a failing target
each leave the rest of the scan unchanged, and a record of a later target
survives a prepended target. -/
theorem claim_C8_witness :
    widgetLocalRec ∈
      (detectAllLoop (evalTarget runWidget Plat.linux "x86_64")
        ([noLinuxTarget] ++ [widgetTarget])).1 ∧
    detectAllSoftware runWidget Plat.linux "x86_64" [noLinuxTarget, widgetTarget] =
      detectAllSoftware runWidget Plat.linux "x86_64" [widgetTarget] ∧
    detectAllSoftware runAllFail Plat.linux "x86_64" [widgetTarget] =
      detectAllSoftware runAllFail Plat.linux "x86_64" [] :=
  ⟨claim_C8.1 (evalTarget runWidget Plat.linux "x86_64") [noLinuxTarget]
     [widgetTarget] widgetLocalRec (by decide),
   claim_C8.2.1 runWidget Plat.linux "x86_64" noLinuxTarget [widgetTarget] rfl,
   claim_C8.2.2 runAllFail Plat.linux "x86_64" widgetTarget ⟨"which widget", ""⟩ []
     rfl (by decide) (by decide)⟩

/-! ### Claim C3: version extraction precedence and the matched shape -/

theorem splitOnChar_ne_nil (sep : Char) (l : List Char) : splitOnChar sep l ≠ [] := by
  induction l with
  | nil => simp [splitOnChar]
  | cons c cs ih =>
    simp only [splitOnChar]
    rcases h : splitOnChar sep cs with _ | ⟨g, gs⟩
    · simp
    · by_cases hc : (c == sep) = true <;> simp [hc]

theorem splitOnChar_append_sep (sep : Char) (b : List Char) :
    ∀ a : List Char,
      splitOnChar sep (a ++ sep :: b) = splitOnChar sep a ++ splitOnChar sep b := by
  intro a
  induction a with
  | nil =>
    simp only [List.nil_append, splitOnChar]
    rcases h : splitOnChar sep b with _ | ⟨g, gs⟩
    · exact absurd h (splitOnChar_ne_nil sep b)
    · simp
  | cons c cs ih =>
    rcases h : splitOnChar sep cs with _ | ⟨g, gs⟩
    · exact absurd h (splitOnChar_ne_nil sep cs)
    · show (match splitOnChar sep (cs ++ sep :: b) with
            | [] => [[c]]
            | g' :: gs' => if c == sep then [] :: g' :: gs' else (c :: g') :: gs') =
        splitOnChar sep (c :: cs) ++ splitOnChar sep b
      rw [ih, h]
      simp only [List.cons_append, splitOnChar, h]
      by_cases hc : (c == sep) = true <;> simp [hc]

theorem splitOnChar_no_sep (sep : Char) (l : List Char)
    (h : ∀ c ∈ l, (c == sep) = false) : splitOnChar sep l = [l] := by
  induction l with
  | nil => rfl
  | cons c cs ih =>
    have hc := h c (List.mem_cons_self c cs)
    have ih' := ih (fun x hx => h x (List.mem_cons_of_mem c hx))
    simp [splitOnChar, ih', hc]

theorem digit_ne_dot (c : Char) (h : c.isDigit = true) : (c == '.') = false := by
  by_cases hc : c = '.'
  · subst hc; exact absurd h (by decide)
  · simpa using hc

theorem takeDigits_digits (cs : List Char) : digitsOnly (takeDigits cs).1 = true := by
  induction cs with
  | nil => rfl
  | cons c cs ih =>
    simp only [takeDigits]
    split
    · rename_i hc
      simpa [digitsOnly] using ⟨hc, by simpa [digitsOnly] using ih⟩
    · rfl

theorem digits_no_dot (l : List Char) (h : digitsOnly l = true) :
    ∀ c ∈ l, (c == '.') = false := by
  intro c hc
  have hd : c.isDigit = true := by
    simp only [digitsOnly, List.all_eq_true] at h
    exact h c hc
  exact digit_ne_dot c hd

theorem matchGroups_shape : ∀ (n : Nat) (cs m r : List Char),
    matchGroups (n + 1) cs = some (m, r) →
    (splitOnChar '.' m).length = n + 1 ∧
      ∀ p ∈ splitOnChar '.' m, p ≠ [] ∧ digitsOnly p = true := by
  intro n
  induction n with
  | zero =>
    intro cs m r h
    simp only [matchGroups] at h
    by_cases hd : (takeDigits cs).1.isEmpty = true
    · simp [hd] at h
    · simp only [hd, if_false, Option.some.injEq, Prod.mk.injEq] at h
      obtain ⟨rfl, rfl⟩ := h
      have hdig := takeDigits_digits cs
      rw [splitOnChar_no_sep '.' (takeDigits cs).1 (digits_no_dot _ hdig)]
      refine ⟨rfl, ?_⟩
      intro p hp
      simp only [List.mem_singleton] at hp
      subst hp
      exact ⟨by simpa using hd, hdig⟩
  | succ n ih =>
    intro cs m r h
    simp only [matchGroups] at h
    by_cases hd : (takeDigits cs).1.isEmpty = true
    · simp [hd] at h
    · rcases hr : (takeDigits cs).2 with _ | ⟨c, r2⟩
      · simp [hd, hr] at h
      · by_cases hc : (c == '.') = true
        · rcases hmg : matchGroups (n + 1) r2 with _ | ⟨m', rest⟩
          · simp [hd, hr, hc, hmg] at h
          · simp only [hd, hr, hc, hmg, if_false, if_true, Option.some.injEq,
              Prod.mk.injEq] at h
            obtain ⟨rfl, rfl⟩ := h
            obtain ⟨hlen, hall⟩ := ih r2 m' _ hmg
            have hdig := takeDigits_digits cs
            rw [splitOnChar_append_sep '.' m' (takeDigits cs).1,
              splitOnChar_no_sep '.' (takeDigits cs).1 (digits_no_dot _ hdig)]
            constructor
            · simp [hlen]
            · intro p hp
              have hp' : p = (takeDigits cs).1 ∨ p ∈ splitOnChar '.' m' := by
                simpa using hp
              rcases hp' with rfl | hp2
              · exact ⟨by simpa using hd, hdig⟩
              · exact hall p hp2
        · simp [hd, hr, hc] at h

theorem matchDotted34_shape (cs m : List Char) (h : matchDotted34 cs = some m) :
    ((splitOnChar '.' m).length = 3 ∨ (splitOnChar '.' m).length = 4) ∧
      ∀ p ∈ splitOnChar '.' m, p ≠ [] ∧ digitsOnly p = true := by
  unfold matchDotted34 at h
  cases hm : matchGroups 3 cs with
  | none => rw [hm] at h; cases h
  | some mr =>
    obtain ⟨m3, r3⟩ := mr
    rw [hm] at h
    obtain ⟨hlen3, hall3⟩ := matchGroups_shape 2 cs m3 r3 hm
    rcases hr : r3 with _ | ⟨c, r3'⟩ <;> rw [hr] at h
    · simp only [boundaryAfter, if_true, Option.some.injEq] at h
      subst h
      exact ⟨Or.inl hlen3, hall3⟩
    · by_cases hc : (c == '.') = true
      · by_cases h4 : (!(takeDigits r3').1.isEmpty && boundaryAfter (takeDigits r3').2) = true
        · simp only [hc, if_true, h4, Option.some.injEq] at h
          subst h
          have hd4 := takeDigits_digits r3'
          rw [splitOnChar_append_sep '.' (takeDigits r3').1 m3,
            splitOnChar_no_sep '.' (takeDigits r3').1 (digits_no_dot _ hd4)]
          constructor
          · right; simp [hlen3]
          · intro p hp
            have hp' : p ∈ splitOnChar '.' m3 ∨ p = (takeDigits r3').1 := by
              simpa using hp
            rcases hp' with hp1 | rfl
            · exact hall3 p hp1
            · refine ⟨?_, hd4⟩
              obtain ⟨h1, -⟩ :
                  (!(takeDigits r3').1.isEmpty) = true ∧
                    boundaryAfter (takeDigits r3').2 = true := by simpa using h4
              simpa using h1
        · by_cases hb : boundaryAfter (c :: r3') = true
          · simp [hc, h4, hb] at h
            subst h
            exact ⟨Or.inl hlen3, hall3⟩
          · simp [hc, h4, hb] at h
      · by_cases hb : boundaryAfter (c :: r3') = true
        · simp [hc, hb] at h
          subst h
          exact ⟨Or.inl hlen3, hall3⟩
        · simp [hc, hb] at h

theorem scanDotted34_shape : ∀ (cs : List Char) (prev : Bool) (v : String),
    scanDotted34 cs prev = some v → versionShape v := by
  intro cs
  induction cs with
  | nil => intro prev v h; simp [scanDotted34] at h
  | cons c cs ih =>
    intro prev v h
    rw [scanDotted34] at h
    split at h
    · cases hm : matchDotted34 (c :: cs) with
      | some m =>
        rw [hm] at h
        simp only [Option.some.injEq] at h
        subst h
        exact matchDotted34_shape (c :: cs) m hm
      | none => rw [hm] at h; exact ih _ _ h
    · exact ih _ _ h

/-- Claim C3, amended: the configured version command always takes
priority and yields the first line of a successful run (no regex is
consulted); with no configured command, the detection output is searched
with the bounded dotted pattern, whose every match is a three- or
four-component dotted numeric version (never two components); no match
leaves the version Unknown. -/
theorem claim_C3_amended :
    (∀ (run : LocalRunner) (pc : PlatformConfig) (out : String),
      pc.version_command ≠ "" →
      extractVersionSD run pc out = versionFromConfiguredCommand run pc out) ∧
    (∀ (run : LocalRunner) (pc : PlatformConfig) (out : String),
      pc.version_command = "" →
      extractVersionSD run pc out = searchDotted34 out) ∧
    (∀ (s v : String), searchDotted34 s = some v → versionShape v) := by
  refine ⟨?_, ?_, fun s v h => scanDotted34_shape s.data false v h⟩
  · intro run pc out h
    unfold extractVersionSD versionFromConfiguredCommand
    simp [h]
  · intro run pc out h
    unfold extractVersionSD
    simp [h]

/-- Claim C3 as frozen fails on its two-component clause: a detection
output whose only dotted number is two-component yields an Unknown
version, although the two-component patterns of utils.extract_version
would match it. -/
theorem claim_C3_counterexample :
    (detectSoftware runMyTool Plat.linux "x86_64" myToolTarget).map
        (fun r => r.versionNumber) = some "Unknown" ∧
    searchDotted34 "MyTool 7.5 installed" = none ∧
    scanDottedN 2 "MyTool 7.5 installed".data = some "7.5" ∧
    utilsExtractVersion "MyTool 7.5 installed" = some "7.5" :=
  ⟨rfl, rfl, rfl, rfl⟩

/-- Witness for the amended claim C3 at concrete targets: a configured git
version command wins, an absent command falls back to the regex search,
and a found match has the dotted shape. -/
theorem claim_C3_witness :
    extractVersionSD runGit ⟨"which git", "git --version"⟩ "/usr/bin/git" =
      versionFromConfiguredCommand runGit ⟨"which git", "git --version"⟩ "/usr/bin/git" ∧
    extractVersionSD runGit ⟨"which widget", ""⟩ "/usr/bin/widget" =
      searchDotted34 "/usr/bin/widget" ∧
    versionShape "2.39.2" :=
  ⟨claim_C3_amended.1 runGit ⟨"which git", "git --version"⟩ "/usr/bin/git" (by decide),
   claim_C3_amended.2.1 runGit ⟨"which widget", ""⟩ "/usr/bin/widget" rfl,
   claim_C3_amended.2.2 "git version 2.39.2" "2.39.2" rfl⟩

end Fingerprint
